import Mathlib

/-!
Shallow embedding of `src/iothub_client/src/message_queue.c` (and its header
`src/iothub_client/inc/message_queue.h`).

Modelling conventions:
* `MESSAGE_HANDLE` is an opaque `void*`; it is modelled as a `Nat`, with `0`
  playing the role of the NULL pointer.
* `time_t` is modelled as `Int`, with `INDEFINITE_TIME = -1` as in the C file.
* The two `double` option fields are modelled as `ℚ`; the claims only involve
  comparisons, which rationals reproduce exactly for the values involved.
* Environment nondeterminism (malloc success, `get_time`/`time` results,
  `singlylinkedlist_add`/`remove` success) is passed in explicitly as oracle
  parameters, one per C call site, indexed by loop iteration where needed.
* `singlylinkedlist` values are `void*`.  `message_queue_add` (line 133)
  stores a raw `MESSAGE_HANDLE` in `pending`, while every other function in
  the file reads list values as `MESSAGE_QUEUE_ITEM*`.  A list value is
  therefore modelled as the sum `ListValue`; reading a raw message handle as
  a `MESSAGE_QUEUE_ITEM*` and dereferencing it has no defined result and is
  mapped to the `Outcome.undef` outcome.
* C `while` loops are given fuel (`Nat`); a run that exhausts its fuel yields
  `Outcome.diverged`, so `∀ fuel, run = diverged` states that the C loop
  never terminates.
* Observable callback invocations (the processing callback handed to the
  backend, and the owner's completion-notification callback) are recorded as
  a list of `Event`s in program order.
-/

/-- MESSAGE_HANDLE (message_queue.h line 17): an opaque `void*`, modelled as a
`Nat`; `0` stands for NULL. -/
abbrev MESSAGE_HANDLE := Nat

/-- INDEFINITE_TIME ((time_t)(-1)), message_queue.c line 21. -/
def INDEFINITE_TIME : Int := -1

/-- RESULT_OK (message_queue.c line 20). -/
def RESULT_OK : Int := 0

/-- The `__FAILURE__` macro expands to a nonzero value (a line number); it is
modelled as the fixed nonzero code 1. -/
def FAILURE_CODE : Int := 1

/-- MESSAGE_QUEUE_RESULT (message_queue.h lines 19-26). -/
inductive MESSAGE_QUEUE_RESULT
  | SUCCESS
  | ERROR
  | RETRYABLE_ERROR
  | TIMEOUT
  | CANCELLED
deriving DecidableEq

/-- MESSAGE_QUEUE_ITEM (message_queue.c lines 42-47).  Note the struct has no
back-reference to its owning queue. -/
structure MESSAGE_QUEUE_ITEM where
  message : MESSAGE_HANDLE
  enqueue_time : Int
  processing_start_time : Int
deriving DecidableEq

/-- A value held by one of the two singly linked lists.  `message_queue_add`
(line 133) stores the raw `MESSAGE_HANDLE`; the rest of the file stores and
expects `MESSAGE_QUEUE_ITEM*` values. -/
inductive ListValue
  | msg (m : MESSAGE_HANDLE)
  | item (it : MESSAGE_QUEUE_ITEM)
deriving DecidableEq

/-- Reading a list value as a `MESSAGE_QUEUE_ITEM*`
(`(MESSAGE_QUEUE_ITEM*)singlylinkedlist_item_get_value(...)` followed by a
field access).  Dereferencing a raw `MESSAGE_HANDLE` (an opaque caller
pointer) as a `MESSAGE_QUEUE_ITEM` has no defined result. -/
def asItem : ListValue → Option MESSAGE_QUEUE_ITEM
  | .item it => some it
  | .msg _ => none

/-- Whether a list value is a well-typed `MESSAGE_QUEUE_ITEM*`. -/
def isItemV : ListValue → Bool
  | .item _ => true
  | .msg _ => false

/-- An observable callback invocation. -/
inductive Event
  | processMessage (m : MESSAGE_HANDLE)
  | completed (m : MESSAGE_HANDLE) (result : MESSAGE_QUEUE_RESULT) (reason : Nat)
deriving DecidableEq

/-- MESSAGE_QUEUE (message_queue.c lines 27-40).  The two callback/context
pairs are modelled by whether the optional completion-notification callback
is registered; the required processing callback's invocations are recorded
as events. -/
structure MESSAGE_QUEUE where
  max_message_enqueued_time_secs : ℚ
  max_message_processing_time_secs : ℚ
  has_completed_callback : Bool
  pending : List ListValue
  in_progress : List ListValue
deriving DecidableEq

/-- Result of running a C code fragment: a normal result, undefined behavior
(an ill-typed pointer cast was dereferenced, or memory past an allocation was
read), or loop fuel exhausted (the loop has not terminated after that many
iterations). -/
inductive Outcome (α : Type)
  | ok (a : α)
  | undef
  | diverged
deriving DecidableEq

/-- The `void* context` argument of MESSAGE_PROCESSING_COMPLETED_CALLBACK
(message_queue.h line 28).  `on_message_processing_completed_callback`
(line 197) casts it to `MESSAGE_QUEUE_HANDLE`; every call site in
message_queue.c passes `(void*)mq_item`, a `MESSAGE_QUEUE_ITEM*`. -/
inductive CompletionContext
  | queue
  | item (it : MESSAGE_QUEUE_ITEM)
deriving DecidableEq

/-- get_difftime: difference of two `time_t` values as a double. -/
def get_difftime (time_end time_start : Int) : ℚ := ((time_end - time_start : Int) : ℚ)

/-- dequeue_message_and_fire_callback (message_queue.c lines 168-192),
with fuel counting iterations of its `while` loop.  The loop body never
advances `list_item`, so the cursor is the head of the list at every
iteration.  On a match at the cursor the node is removed, the owner's
notification callback fires when registered, and the loop breaks; the
returned Bool is `list_item != NULL`. -/
def dequeue_message_and_fire_callback (has_cb : Bool) (message : MESSAGE_HANDLE)
    (result : MESSAGE_QUEUE_RESULT) (reason : Nat) :
    Nat → List ListValue → Outcome (Bool × List ListValue × List Event)
  | 0, _ => .diverged
  | _ + 1, [] => .ok (false, [], [])
  | fuel + 1, v :: rest =>
    match asItem v with
    | none => .undef
    | some mq_item =>
      if mq_item.message = message then
        .ok (true, rest,
          if has_cb then [Event.completed mq_item.message result reason] else [])
      else
        dequeue_message_and_fire_callback has_cb message result reason fuel (v :: rest)

/-- on_message_processing_completed_callback (message_queue.c lines 195-203).
The C code casts `context` to `MESSAGE_QUEUE_HANDLE` (line 197); when the
context is actually a `MESSAGE_QUEUE_ITEM*` (as at every call site in the
file), the subsequent field reads are past the item allocation and have no
defined result.  When the context really is the queue, the function runs
`dequeue_message_and_fire_callback` on `in_progress`; a not-found result is
only logged. -/
def on_message_processing_completed_callback (ctx : CompletionContext)
    (q : MESSAGE_QUEUE) (message : MESSAGE_HANDLE) (result : MESSAGE_QUEUE_RESULT)
    (reason : Nat) (fuel : Nat) : Outcome (MESSAGE_QUEUE × List Event) :=
  match ctx with
  | .item _ => .undef
  | .queue =>
    match dequeue_message_and_fire_callback q.has_completed_callback message result
        reason fuel q.in_progress with
    | .undef => .undef
    | .diverged => .diverged
    | .ok (_, l, evs) => .ok ({ q with in_progress := l }, evs)

/-- One sweep walk of process_timeouts (the three near-identical `while`
loops at message_queue.c lines 217-239, 243-258 and 263-285).  `l` is the
current content of the swept list; `cursor` is the chain of nodes still to
visit (the C code saves `singlylinkedlist_get_next_item` before any removal,
and a removal performed by `dequeue_message_and_fire_callback` only ever
affects nodes at or before the current one, never the saved chain).  `key`
selects the timestamp compared against the deadline (`enqueue_time` for the
first two loops, `processing_start_time` for the third); `break_on_fresh`
tells whether the loop breaks at the first non-expired item (true for the
first and third loops, false for the second). -/
def sweep_loop (has_cb : Bool) (deadline : ℚ) (now : Int)
    (key : MESSAGE_QUEUE_ITEM → Int) (break_on_fresh : Bool) :
    Nat → List ListValue → List ListValue → Outcome (List ListValue × List Event)
  | 0, _, _ => .diverged
  | _ + 1, l, [] => .ok (l, [])
  | fuel + 1, l, v :: cursor_rest =>
    match asItem v with
    | none => .undef
    | some mq_item =>
      if get_difftime now (key mq_item) ≥ deadline then
        match dequeue_message_and_fire_callback has_cb mq_item.message .TIMEOUT 0
            (fuel + 1) l with
        | .undef => .undef
        | .diverged => .diverged
        | .ok (_, l', evs) =>
          match sweep_loop has_cb deadline now key break_on_fresh fuel l' cursor_rest with
          | .undef => .undef
          | .diverged => .diverged
          | .ok (l'', evs') => .ok (l'', evs ++ evs')
      else if break_on_fresh then .ok (l, [])
      else sweep_loop has_cb deadline now key break_on_fresh fuel l cursor_rest

/-- process_timeouts (message_queue.c lines 205-288).  `now` is the
`get_time(NULL)` result; on INDEFINITE_TIME the function logs and performs
no sweep.  The first two loops run only when
`max_message_enqueued_time_secs > 0` (both are inside the same guard); the
third only when `max_message_processing_time_secs > 0`. -/
def process_timeouts (q : MESSAGE_QUEUE) (now : Int) (fuel : Nat) :
    Outcome (MESSAGE_QUEUE × List Event) :=
  if now = INDEFINITE_TIME then
    .ok (q, [])
  else
    match (if q.max_message_enqueued_time_secs > 0 then
        sweep_loop q.has_completed_callback q.max_message_enqueued_time_secs now
          (fun it => it.enqueue_time) true fuel q.pending q.pending
      else .ok (q.pending, [])) with
    | .undef => .undef
    | .diverged => .diverged
    | .ok (pending1, evs1) =>
      match (if q.max_message_enqueued_time_secs > 0 then
          sweep_loop q.has_completed_callback q.max_message_enqueued_time_secs now
            (fun it => it.enqueue_time) false fuel q.in_progress q.in_progress
        else .ok (q.in_progress, [])) with
      | .undef => .undef
      | .diverged => .diverged
      | .ok (in_progress1, evs2) =>
        match (if q.max_message_processing_time_secs > 0 then
            sweep_loop q.has_completed_callback q.max_message_processing_time_secs now
              (fun it => it.processing_start_time) true fuel in_progress1 in_progress1
          else .ok (in_progress1, [])) with
        | .undef => .undef
        | .diverged => .diverged
        | .ok (in_progress2, evs3) =>
          .ok ({ q with pending := pending1, in_progress := in_progress2 },
               evs1 ++ evs2 ++ evs3)

/-- Environment for one iteration of the dispatch loop: the result of its
`singlylinkedlist_remove`, its `get_time(NULL)` call, and its
`singlylinkedlist_add` into `in_progress`. -/
structure StepEnv where
  remove_ok : Bool
  now : Int
  add_ok : Bool
deriving DecidableEq

/-- process_pending_messages (message_queue.c lines 290-319).  Each iteration
pops the head of `pending`; on a list-removal failure the item is completed
with ERROR and the loop breaks (line 302); on a clock failure the item is
completed with ERROR and the loop continues (line 307).  Line 309 tests
`singlylinkedlist_add(...) != 0`, but `singlylinkedlist_add` returns a
LIST_ITEM_HANDLE — non-NULL exactly on success — so after a successful
append (the item, with `processing_start_time` stamped, is then already in
`in_progress`) the code fires the ERROR completion and continues, and only
when the append fails does it invoke the processing callback.  Every
completion call passes `(void*)mq_item` as the completion context. -/
def process_pending_messages (env : Nat → StepEnv) :
    Nat → Nat → MESSAGE_QUEUE → Outcome (MESSAGE_QUEUE × List Event)
  | 0, _, _ => .diverged
  | fuel + 1, i, q =>
    match q.pending with
    | [] => .ok (q, [])
    | v :: rest =>
      match asItem v with
      | none => .undef
      | some mq_item =>
        if (env i).remove_ok = false then
          match on_message_processing_completed_callback (.item mq_item) q
              mq_item.message .ERROR 0 (fuel + 1) with
          | .undef => .undef
          | .diverged => .diverged
          | .ok (q', evs) => .ok (q', evs)
        else
          if (env i).now = INDEFINITE_TIME then
            match on_message_processing_completed_callback (.item mq_item)
                { q with pending := rest } mq_item.message .ERROR 0 (fuel + 1) with
            | .undef => .undef
            | .diverged => .diverged
            | .ok (q', evs) =>
              match process_pending_messages env fuel (i + 1) q' with
              | .undef => .undef
              | .diverged => .diverged
              | .ok (q'', evs') => .ok (q'', evs ++ evs')
          else
            if (env i).add_ok = true then
              match on_message_processing_completed_callback
                  (.item { mq_item with processing_start_time := (env i).now })
                  { q with pending := rest,
                           in_progress := q.in_progress ++
                             [ListValue.item
                               { mq_item with processing_start_time := (env i).now }] }
                  mq_item.message .ERROR 0 (fuel + 1) with
              | .undef => .undef
              | .diverged => .diverged
              | .ok (q', evs) =>
                match process_pending_messages env fuel (i + 1) q' with
                | .undef => .undef
                | .diverged => .diverged
                | .ok (q'', evs') => .ok (q'', evs ++ evs')
            else
              match process_pending_messages env fuel (i + 1) { q with pending := rest } with
              | .undef => .undef
              | .diverged => .diverged
              | .ok (q'', evs') => .ok (q'', Event.processMessage mq_item.message :: evs')

/-- message_queue_do_work (message_queue.c lines 321-328): NULL is a no-op;
otherwise process_timeouts then process_pending_messages. -/
def message_queue_do_work (q? : Option MESSAGE_QUEUE) (now : Int)
    (env : Nat → StepEnv) (fuel : Nat) : Outcome (Option MESSAGE_QUEUE × List Event) :=
  match q? with
  | none => .ok (none, [])
  | some q =>
    match process_timeouts q now fuel with
    | .undef => .undef
    | .diverged => .diverged
    | .ok (q1, evs1) =>
      match process_pending_messages env fuel 0 q1 with
      | .undef => .undef
      | .diverged => .diverged
      | .ok (q2, evs2) => .ok (some q2, evs1 ++ evs2)

/-- Environment for one message_queue_add call: its malloc, its `time(NULL)`
call, and its `singlylinkedlist_add`. -/
structure AddEnv where
  malloc_ok : Bool
  now : Int
  list_add_ok : Bool
deriving DecidableEq

/-- message_queue_add (message_queue.c lines 109-148).  On NULL arguments the
code assigns `result = NULL` (line 116), i.e. the integer 0, which equals
RESULT_OK.  On the success path line 133 appends the raw MESSAGE_HANDLE to
`pending`; the malloc'd MESSAGE_QUEUE_ITEM (whose fields are set at lines
127, 141-142) is never stored in any list.  No callback is invoked on any
path; the third component records the (empty) list of callback events. -/
def message_queue_add (q? : Option MESSAGE_QUEUE) (message : MESSAGE_HANDLE)
    (env : AddEnv) : Int × Option MESSAGE_QUEUE × List Event :=
  match q? with
  | none => (0, none, [])
  | some q =>
    if message = 0 then (0, some q, [])
    else if env.malloc_ok = false then (FAILURE_CODE, some q, [])
    else if env.now = INDEFINITE_TIME then (FAILURE_CODE, some q, [])
    else if env.list_add_ok = false then (FAILURE_CODE, some q, [])
    else (RESULT_OK, some { q with pending := q.pending ++ [ListValue.msg message] }, [])

/-- MESSAGE_QUEUE_CONFIG (message_queue.h lines 31-38); the two
callback/context pairs are modelled by whether each callback is non-NULL. -/
structure MESSAGE_QUEUE_CONFIG where
  message_processing_timeout_secs : Nat
  has_process_callback : Bool
  has_completed_callback : Bool
deriving DecidableEq

/-- Environment for one message_queue_create call: its malloc, the two
`singlylinkedlist_create` calls, and — because message_queue_create never
writes `max_message_enqueued_time_secs` or `max_message_processing_time_secs`
(lines 98-104 assign only the four callback fields of the freshly malloc'd
struct) — the indeterminate values those two fields hold in the malloc'd
block. -/
structure CreateEnv where
  malloc_ok : Bool
  pending_create_ok : Bool
  in_progress_create_ok : Bool
  uninit_max_enqueue : ℚ
  uninit_max_processing : ℚ
deriving DecidableEq

/-- message_queue_create (message_queue.c lines 67-107). -/
def message_queue_create (config : Option MESSAGE_QUEUE_CONFIG) (env : CreateEnv) :
    Option MESSAGE_QUEUE :=
  match config with
  | none => none
  | some cfg =>
    if cfg.has_process_callback = false then none
    else if env.malloc_ok = false then none
    else if env.pending_create_ok = false then none
    else if env.in_progress_create_ok = false then none
    else some
      { max_message_enqueued_time_secs := env.uninit_max_enqueue,
        max_message_processing_time_secs := env.uninit_max_processing,
        has_completed_callback := cfg.has_completed_callback,
        pending := [],
        in_progress := [] }

/-- message_queue_is_empty (message_queue.c lines 150-166).  Returns the int
result and the value written through `is_empty` (none when nothing is
written); `out_ptr_valid` tells whether the `bool* is_empty` argument is
non-NULL. -/
def message_queue_is_empty (q? : Option MESSAGE_QUEUE) (out_ptr_valid : Bool) :
    Int × Option Bool :=
  match q?, out_ptr_valid with
  | some q, true =>
    (RESULT_OK, some (q.pending.isEmpty && q.in_progress.isEmpty))
  | _, _ => (FAILURE_CODE, none)

/-- One of the two `while` loops of message_queue_remove_all (message_queue.c
lines 336-341 and 343-348): while the list has a head, read the head as a
MESSAGE_QUEUE_ITEM* and run dequeue_message_and_fire_callback for its
message with the CANCELLED result. -/
def remove_all_loop (has_cb : Bool) :
    Nat → List ListValue → Outcome (List ListValue × List Event)
  | 0, _ => .diverged
  | _ + 1, [] => .ok ([], [])
  | fuel + 1, v :: rest =>
    match asItem v with
    | none => .undef
    | some mq_item =>
      match dequeue_message_and_fire_callback has_cb mq_item.message .CANCELLED 0
          (fuel + 1) (v :: rest) with
      | .undef => .undef
      | .diverged => .diverged
      | .ok (_, l', evs) =>
        match remove_all_loop has_cb fuel l' with
        | .undef => .undef
        | .diverged => .diverged
        | .ok (l'', evs') => .ok (l'', evs ++ evs')

/-- message_queue_remove_all (message_queue.c lines 330-350): NULL is a
no-op; otherwise drain `in_progress` first, then `pending`, firing CANCELLED
through dequeue_message_and_fire_callback for each head item. -/
def message_queue_remove_all (q? : Option MESSAGE_QUEUE) (fuel : Nat) :
    Outcome (Option MESSAGE_QUEUE × List Event) :=
  match q? with
  | none => .ok (none, [])
  | some q =>
    match remove_all_loop q.has_completed_callback fuel q.in_progress with
    | .undef => .undef
    | .diverged => .diverged
    | .ok (in_progress1, evs1) =>
      match remove_all_loop q.has_completed_callback fuel q.pending with
      | .undef => .undef
      | .diverged => .diverged
      | .ok (pending1, evs2) =>
        .ok (some { q with in_progress := in_progress1, pending := pending1 },
             evs1 ++ evs2)

/-- message_queue_destroy (message_queue.c lines 51-65): a NULL handle is
skipped entirely; otherwise the two lists are freed.  No callback is ever
invoked; the returned list records the (empty) callback events. -/
def message_queue_destroy (q? : Option MESSAGE_QUEUE) : List Event :=
  match q? with
  | none => []
  | some _ => []

/-- An empty queue with both timeout options at 0 (disabled) and the owner's
notification callback registered. -/
def emptyQueue : MESSAGE_QUEUE :=
  { max_message_enqueued_time_secs := 0,
    max_message_processing_time_secs := 0,
    has_completed_callback := true,
    pending := [],
    in_progress := [] }

/-- A benign environment for message_queue_add: malloc succeeds,
`time(NULL)` returns 0, the list append succeeds. -/
def okAddEnv : AddEnv := { malloc_ok := true, now := 0, list_add_ok := true }

/-- A benign dispatch environment: list removals and appends succeed and
`get_time(NULL)` returns 10 at every iteration. -/
def okStepEnv : Nat → StepEnv :=
  fun _ => { remove_ok := true, now := 10, add_ok := true }

/-- A dispatch environment whose `get_time(NULL)` fails at every
iteration. -/
def badClockStepEnv : Nat → StepEnv :=
  fun _ => { remove_ok := true, now := INDEFINITE_TIME, add_ok := true }

/-- A queue with two well-typed pending items (messages 1 and 2), neither
dispatched yet. -/
def dispatchTestQueue : MESSAGE_QUEUE :=
  { emptyQueue with
      pending := [ListValue.item ⟨1, 0, INDEFINITE_TIME⟩,
                  ListValue.item ⟨2, 0, INDEFINITE_TIME⟩] }

/-- A queue with one well-typed in-progress item for message 1, dispatched
at time 5. -/
def inProgressTestQueue : MESSAGE_QUEUE :=
  { emptyQueue with in_progress := [ListValue.item ⟨1, 0, 5⟩] }

/-- A valid creation configuration: both callbacks provided. -/
def validConfig : MESSAGE_QUEUE_CONFIG :=
  { message_processing_timeout_secs := 0,
    has_process_callback := true,
    has_completed_callback := true }

/-- A creation environment where every allocation succeeds and the malloc'd
block happens to hold 1 in the bytes of `max_message_enqueued_time_secs` and
0 in those of `max_message_processing_time_secs`. -/
def garbageCreateEnv : CreateEnv :=
  { malloc_ok := true, pending_create_ok := true, in_progress_create_ok := true,
    uninit_max_enqueue := 1, uninit_max_processing := 0 }

/-- The queue message_queue_create returns under `garbageCreateEnv`. -/
def createdGarbageQueue : MESSAGE_QUEUE :=
  { max_message_enqueued_time_secs := 1,
    max_message_processing_time_secs := 0,
    has_completed_callback := true,
    pending := [],
    in_progress := [] }

/-- Claim C3: message_queue_add with a NULL queue handle (or a NULL message)
logs the invalid argument but assigns `result = NULL` (line 116), i.e. the
integer 0, which is RESULT_OK — the call reports success instead of a
failure code.  It does leave all state unchanged and fires no callback. -/
theorem add_null_arguments_return_RESULT_OK :
    message_queue_add none 1 okAddEnv = (RESULT_OK, none, []) ∧
    message_queue_add (some emptyQueue) 0 okAddEnv = (RESULT_OK, some emptyQueue, []) :=
  ⟨rfl, rfl⟩

/-- Claim C4: a successful message_queue_add appends the raw MESSAGE_HANDLE
to `pending` (line 133), not a MESSAGE_QUEUE_ITEM wrapping it; the malloc'd
item is stored in no list (it leaks).  The appended value is not a
well-typed item, contradicting the claimed QueueItem append. -/
theorem add_appends_raw_message_handle :
    message_queue_add (some emptyQueue) 7 okAddEnv =
      (RESULT_OK, some { emptyQueue with pending := [ListValue.msg 7] }, []) ∧
    ({ emptyQueue with pending := [ListValue.msg 7] } : MESSAGE_QUEUE).pending.all
      isItemV = false :=
  ⟨rfl, rfl⟩

/-- Claim C5: at dispatch the completion callback is handed `(void*)mq_item`
as its context (line 316), but on_message_processing_completed_callback
casts the context to MESSAGE_QUEUE_HANDLE (line 197) — the struct has no
queue back-reference.  Invoking the completion callback for dispatched
message 1 with the context it was given dereferences a MESSAGE_QUEUE_ITEM
as a MESSAGE_QUEUE: no defined behavior, hence neither the matching-item
removal nor the logged no-op that the claim describes. -/
theorem completion_callback_context_cast_is_undefined :
    on_message_processing_completed_callback (.item ⟨1, 0, 5⟩) inProgressTestQueue
      1 .SUCCESS 0 10 = .undef := rfl

/-- Claim C6: the `while` loop of dequeue_message_and_fire_callback never
advances `list_item`, so on a one-item list whose message (1) differs from
the target (2), the loop re-examines the head forever: after any number of
iterations it has not terminated, refuting the claimed bounded scan. -/
theorem dequeue_scan_never_terminates_on_mismatch (fuel : Nat) :
    dequeue_message_and_fire_callback true 2 .SUCCESS 0 fuel
      [ListValue.item ⟨1, 0, INDEFINITE_TIME⟩] = .diverged := by
  induction fuel with
  | zero => rfl
  | succ n ih => simpa [dequeue_message_and_fire_callback, asItem] using ih

/-- Claim C7: with two well-typed pending items and a clock failure while
moving the first, the code completes the item through
on_message_processing_completed_callback with `(void*)mq_item` as context
(line 307); the callback casts that context to MESSAGE_QUEUE_HANDLE, so the
ERROR completion has no defined behavior and the second pending item is
never dispatched — dispatch does not continue with the next item. -/
theorem dispatch_error_path_is_undefined :
    process_pending_messages badClockStepEnv 10 0 dispatchTestQueue = .undef := rfl

/-- Claim C10: for a NULL queue handle, message_queue_do_work,
message_queue_remove_all and message_queue_destroy return at once: the state
is untouched and no callback is invoked. -/
theorem null_handle_operations_are_noops (now : Int) (env : Nat → StepEnv) (fuel : Nat) :
    message_queue_do_work none now env fuel = .ok (none, []) ∧
    message_queue_remove_all none fuel = .ok (none, []) ∧
    message_queue_destroy none = [] :=
  ⟨rfl, rfl, rfl⟩

/-- Claim C1: message 1 is admitted by a fully successful message_queue_add,
which leaves the raw MESSAGE_HANDLE — not a MESSAGE_QUEUE_ITEM — in
`pending`.  The immediately following message_queue_do_work (no timeouts
configured, benign environment) dereferences that value as an item: the run
has no defined result and the owner's notification callback is never
invoked for message 1, so the admitted message does not receive a terminal
notification exactly once. -/
theorem admitted_message_gets_no_terminal_notification :
    message_queue_add (some emptyQueue) 1 okAddEnv =
      (RESULT_OK, some { emptyQueue with pending := [ListValue.msg 1] }, []) ∧
    message_queue_do_work (some { emptyQueue with pending := [ListValue.msg 1] })
      10 okStepEnv 10 = .undef :=
  ⟨rfl, rfl⟩

/-- Claim C2: messages 1, 2, 3 are enqueued in order by three successful
message_queue_add calls with no timeouts configured; the single
message_queue_do_work that follows reads the first pending value as a
MESSAGE_QUEUE_ITEM although it is the raw handle of message 1, so the run
has no defined result and the processing callback is not invoked for
messages 1, 2, 3 in order (it is never invoked at all in any defined
behavior). -/
theorem fifo_dispatch_trace_has_no_defined_result :
    message_queue_add (some emptyQueue) 1 okAddEnv =
      (RESULT_OK, some { emptyQueue with pending := [ListValue.msg 1] }, []) ∧
    message_queue_add (some { emptyQueue with pending := [ListValue.msg 1] }) 2 okAddEnv =
      (RESULT_OK, some { emptyQueue with
        pending := [ListValue.msg 1, ListValue.msg 2] }, []) ∧
    message_queue_add
        (some { emptyQueue with pending := [ListValue.msg 1, ListValue.msg 2] }) 3
        okAddEnv =
      (RESULT_OK, some { emptyQueue with
        pending := [ListValue.msg 1, ListValue.msg 2, ListValue.msg 3] }, []) ∧
    message_queue_do_work
      (some { emptyQueue with
        pending := [ListValue.msg 1, ListValue.msg 2, ListValue.msg 3] })
      10 okStepEnv 10 = .undef :=
  ⟨rfl, rfl, rfl, rfl⟩

/-- Claim C9: message_queue_create never writes the two timeout option
fields (lines 98-104 assign only the callback fields of the malloc'd
struct), so a successfully created queue carries whatever the allocation
held — here 1 second for the enqueue deadline, which is not disabled — and
a pending item of age 2 then receives a TIMEOUT from the first
process_timeouts sweep at this untouched default configuration. -/
theorem create_leaves_timeout_options_uninitialized :
    message_queue_create (some validConfig) garbageCreateEnv = some createdGarbageQueue ∧
    ¬ (createdGarbageQueue.max_message_enqueued_time_secs ≤ 0) ∧
    process_timeouts
        { createdGarbageQueue with pending := [ListValue.item ⟨5, 0, INDEFINITE_TIME⟩] }
        2 10 =
      .ok ({ createdGarbageQueue with pending := [] },
           [Event.completed 5 .TIMEOUT 0]) :=
  ⟨rfl, by decide, by decide⟩

/-- Claim C8: message 1 is admitted by a fully successful message_queue_add,
which (line 133) leaves the raw MESSAGE_HANDLE in `pending`; the subsequent
message_queue_remove_all reads that head value as a MESSAGE_QUEUE_ITEM*
(line 345) and dereferences it (line 347 → lines 174/176): the run has no
defined result, so the tracked message receives no CANCELLED notification
and the claimed empty post-state with is_empty = true is never reached. -/
theorem remove_all_on_reachable_state_is_undefined :
    message_queue_add (some emptyQueue) 1 okAddEnv =
      (RESULT_OK, some { emptyQueue with pending := [ListValue.msg 1] }, []) ∧
    message_queue_remove_all (some { emptyQueue with pending := [ListValue.msg 1] })
      10 = .undef :=
  ⟨rfl, rfl⟩
